import Mathlib

/-!
Shallow embedding of `src/text_animator.py` (text-to-video generator).

Modelling conventions:
* PIL drawing is modelled as a display list: a `Frame` records its pixel
  dimensions, background color and the ordered sequence of `draw.text`
  operations applied to it.  Rasterisation is PIL library code, not part of
  the repository, so two frames with the same display list have the same
  pixels, and a frame whose display list draws only empty strings shows the
  background only.
* Font metrics (`draw.textbbox`, `draw.textlength`) are PIL library code
  depending on the ambient font file; they are abstracted as a `FontMetrics`
  record of measuring functions, kept fixed across all frames of a request
  (as in the source, which builds the same font in every `create_base_frame`).
* Python floats are modelled as `ℚ` where the source only does arithmetic
  and comparisons,  and as `ℝ` where the source calls `np.sin`.  Python's
  `int(...)` truncates toward zero: `pyIntQ` / `pyTruncR`.
* Python's global `random` module state is modelled as an explicit stream of
  draws in `[0,1)` with a cursor (`Rng`); `random.random()` consumes one
  draw, `random.choice` consumes one draw and indexes the sequence.
* Fallible Python code (KeyError on the style dict, ZeroDivisionError in
  the typewriter branch when `total_frames = 0`) is modelled with `Except`.
-/

/-- Python `int(x)` on a rational float value: truncation toward zero. -/
def pyIntQ (x : ℚ) : ℤ := if 0 ≤ x then ⌊x⌋ else ⌈x⌉

/-- Python `int(x)` on a real value: truncation toward zero. -/
noncomputable def pyTruncR (x : ℝ) : ℤ := if 0 ≤ x then ⌊x⌋ else ⌈x⌉

/-- `int(fps * duration)` — the frame count every effect computes
(`total_frames = int(fps * duration)` in the source). -/
def totalFrames (fps : ℕ) (duration : ℚ) : ℕ := (pyIntQ ((fps : ℚ) * duration)).toNat

/-- Python `range(0, stop, step)` for positive `step`. -/
def rangeStep (stop step : ℕ) : List ℕ :=
  (List.range ((stop + step - 1) / step)).map (· * step)

/-- One `draw.text((x, y), text, font=font, fill=fill)` call. -/
structure DrawOp where
  x : ℚ
  y : ℚ
  text : String
  fill : String
deriving DecidableEq, Inhabited

/-- A raster frame: `Image.new('RGB', (width, height), background)` plus the
ordered display list of text-draw operations performed on it. -/
structure Frame where
  width : ℕ
  height : ℕ
  background : String
  ops : List DrawOp
deriving DecidableEq, Inhabited

/-- Appending one `draw.text` operation to a frame's display list. -/
def drawText (img : Frame) (x y : ℚ) (s fill : String) : Frame :=
  { img with ops := img.ops ++ [⟨x, y, s, fill⟩] }

/-- Abstraction of the PIL font obtained in `create_base_frame`
(`textbbox` width/height and `textlength`), fixed for a whole request. -/
structure FontMetrics where
  textWidth : String → ℤ
  textHeight : String → ℤ
  textlength : String → ℚ

/-- The state of Python's global `random` module: a stream of uniform draws
in `[0,1)` and a cursor telling how many have been consumed. -/
structure Rng where
  draws : ℕ → ℚ
  idx : ℕ

/-- `random.random()`: return the next draw, advancing the global state. -/
def Rng.next (r : Rng) : ℚ × Rng := (r.draws r.idx, ⟨r.draws, r.idx + 1⟩)

/-- `random.choice(s)`: pick an element of `s` by one uniform draw. -/
def randChoice (s : List Char) (r : Rng) : Char × Rng :=
  let (x, r1) := r.next
  (s.getD (Int.toNat ⌊x * (s.length : ℚ)⌋) 'A', r1)

/-- `AnimationStyle` dataclass. -/
structure AnimationStyle where
  name : String
  font_size : ℕ
  colors : List String
  background : String
  animation_type : String
  duration : ℚ
deriving DecidableEq, Inhabited

/-- `styles['neon']`. -/
def neonStyle : AnimationStyle :=
  ⟨"Neon Glow", 72, ["#FF1493", "#00FF00", "#FF4500"], "#000000", "glow", 1/2⟩

/-- `styles['typewriter']`. -/
def typewriterStyle : AnimationStyle :=
  ⟨"Typewriter", 64, ["#FFFFFF"], "#000000", "type", 3/10⟩

/-- `styles['bounce']`. -/
def bounceStyle : AnimationStyle :=
  ⟨"Bouncing Text", 80, ["#FFD700"], "#000033", "bounce", 2/5⟩

/-- `styles['matrix']`. -/
def matrixStyle : AnimationStyle :=
  ⟨"Matrix Rain", 56, ["#00FF00"], "#000000", "matrix", 3/5⟩

/-- `styles['rainbow']`. -/
def rainbowStyle : AnimationStyle :=
  ⟨"Rainbow Wave", 70,
    ["#FF0000", "#FF7F00", "#FFFF00", "#00FF00", "#0000FF", "#4B0082", "#9400D3"],
    "#FFFFFF", "rainbow", 2/5⟩

/-- `TextAnimator.self.styles`: the name-keyed style dictionary, in its
insertion order. -/
def styles : List (String × AnimationStyle) :=
  [("neon", neonStyle), ("typewriter", typewriterStyle), ("bounce", bounceStyle),
   ("matrix", matrixStyle), ("rainbow", rainbowStyle)]

/-- `x = (width - text_width) // 2` (Python `//` is floor division). -/
def originX (font : FontMetrics) (text : String) (width : ℕ) : ℤ :=
  Int.fdiv ((width : ℤ) - font.textWidth text) 2

/-- `y = (height - text_height) // 2`. -/
def originY (font : FontMetrics) (text : String) (height : ℕ) : ℤ :=
  Int.fdiv ((height : ℤ) - font.textHeight text) 2

/-- `TextAnimator.create_base_frame`: new background-colored image plus the
centered origin. -/
def create_base_frame (font : FontMetrics) (text : String) (width height : ℕ)
    (style : AnimationStyle) : Frame × ℤ × ℤ :=
  (⟨width, height, style.background, []⟩, originX font text width, originY font text height)

/-- Python exceptions that the frame-generation code can raise. -/
inductive PyErr where
  | keyError
  | zeroDivisionError
deriving DecidableEq

/-- `TextAnimator.create_typewriter_effect`.  `chars_per_frame =
max(1, len(text) // total_frames)` raises `ZeroDivisionError` when
`total_frames = 0`; frame `i` draws `text[:int(i * chars_per_frame)]`
(Python slicing clamps at `len(text)`) in `style.colors[0]`. -/
def create_typewriter_effect (font : FontMetrics) (text : String) (width height : ℕ)
    (style : AnimationStyle) (fps : ℕ) (duration : ℚ) : Except PyErr (List Frame) :=
  let total := totalFrames fps duration
  if total = 0 then .error .zeroDivisionError
  else
    let cpf := max 1 (text.length / total)
    .ok ((List.range total).map fun i =>
      let (img, x, y) := create_base_frame font text width height style
      drawText img (x : ℚ) (y : ℚ) (text.take (i * cpf)) (style.colors.getD 0 ""))

/-- `offset = int(20 * np.sin(2 * np.pi * i / fps))` in
`create_bounce_effect`. -/
noncomputable def bounce_offset (i fps : ℕ) : ℤ :=
  pyTruncR (20 * Real.sin (2 * Real.pi * (i : ℝ) / (fps : ℝ)))

/-- `TextAnimator.create_bounce_effect`: frame `i` draws the full text at
`(x, y + offset)` in `style.colors[0]`. -/
noncomputable def create_bounce_effect (font : FontMetrics) (text : String)
    (width height : ℕ) (style : AnimationStyle) (fps : ℕ) (duration : ℚ) : List Frame :=
  (List.range (totalFrames fps duration)).map fun i =>
    let (img, x, y) := create_base_frame font text width height style
    drawText img (x : ℚ) ((y : ℚ) + (bounce_offset i fps : ℚ)) text (style.colors.getD 0 "")

/-- The fixed glyph alphabet of the matrix effect. -/
def matrix_chars : List Char := "ABCDEFGHIJKLMNOPQRSTUVWXYZ0123456789@#$%&*".toList

/-- One lowercase hex digit. -/
def hexDigit (n : ℕ) : Char := "0123456789abcdef".toList.getD n '0'

/-- Python `f"{n:02x}"` for `0 ≤ n ≤ 255`. -/
def hex2 (n : ℕ) : String := String.mk [hexDigit (n / 16 % 16), hexDigit (n % 16)]

/-- One grid cell of the matrix rain: with probability `0.1` draw a random
glyph at `(col, row)` whose green intensity is `int(255 * (1 - row/height))`,
consuming draws from the global `random` state. -/
def matrixCellStep (height : ℕ) (acc : Frame × Rng) (cell : ℕ × ℕ) : Frame × Rng :=
  let (img, r) := acc
  let (p, r1) := r.next
  if p < 1/10 then
    let (ch, r2) := randChoice matrix_chars r1
    let opacity := (pyIntQ (255 * (1 - (cell.2 : ℚ) / (height : ℚ)))).toNat
    let color := "#" ++ hex2 0 ++ hex2 opacity ++ hex2 0
    (drawText img (cell.1 : ℚ) (cell.2 : ℚ) (String.mk [ch]) color, r2)
  else (img, r1)

/-- The `for col in range(0, width, 20): for row in range(0, height, 30):`
grid, in the source's iteration order (column outer, row inner). -/
def matrixCells (width height : ℕ) : List (ℕ × ℕ) :=
  (rangeStep width 20).flatMap fun col => (rangeStep height 30).map fun row => (col, row)

/-- One frame of `create_matrix_effect`: the noise field over the cell grid,
then the main text drawn on top. -/
def matrixFrame (font : FontMetrics) (text : String) (width height : ℕ)
    (style : AnimationStyle) (r : Rng) : Frame × Rng :=
  let (img, x, y) := create_base_frame font text width height style
  let (img2, r2) := (matrixCells width height).foldl (matrixCellStep height) (img, r)
  (drawText img2 (x : ℚ) (y : ℚ) text (style.colors.getD 0 ""), r2)

/-- The frame loop of `create_matrix_effect`, threading the global `random`
state from one frame to the next. -/
def runMatrix (font : FontMetrics) (text : String) (width height : ℕ)
    (style : AnimationStyle) : List ℕ → Rng → List Frame × Rng
  | [], r => ([], r)
  | _ :: is, r =>
    let (f, r1) := matrixFrame font text width height style r
    let (fs, r2) := runMatrix font text width height style is r1
    (f :: fs, r2)

/-- `TextAnimator.create_matrix_effect` (the frame index does not occur in
the loop body: every frame re-rolls the noise field independently). -/
def create_matrix_effect (font : FontMetrics) (rng : Rng) (text : String)
    (width height : ℕ) (style : AnimationStyle) (fps : ℕ) (duration : ℚ) :
    List Frame × Rng :=
  runMatrix font text width height style (List.range (totalFrames fps duration)) rng

/-- `TextAnimator.create_rainbow_effect`: frame `i` draws character `j` at
`(x + draw.textlength(text[:j]), y)` in
`style.colors[(i + j) % len(style.colors)]`. -/
def create_rainbow_effect (font : FontMetrics) (text : String) (width height : ℕ)
    (style : AnimationStyle) (fps : ℕ) (duration : ℚ) : List Frame :=
  (List.range (totalFrames fps duration)).map fun i =>
    let (img, x, y) := create_base_frame font text width height style
    text.toList.enum.foldl (fun im jc =>
      let colorIdx := (i + jc.1) % style.colors.length
      let char_width := font.textlength (text.take jc.1)
      drawText im ((x : ℚ) + char_width) (y : ℚ) (String.mk [jc.2])
        (style.colors.getD colorIdx "")) img

/-- `TextAnimator.create_neon_effect`: frame `i` draws the text four times
per offset in `range(3, 0, -1)` in `colors[i % len(colors)]`, then once more
on top in solid white. -/
def create_neon_effect (font : FontMetrics) (text : String) (width height : ℕ)
    (style : AnimationStyle) (fps : ℕ) (duration : ℚ) : List Frame :=
  (List.range (totalFrames fps duration)).map fun i =>
    let (img, x, y) := create_base_frame font text width height style
    let glow := style.colors.getD (i % style.colors.length) ""
    let img2 := [3, 2, 1].foldl (fun im off =>
      let im1 := drawText im ((x : ℚ) - (off : ℚ)) (y : ℚ) text glow
      let im2 := drawText im1 ((x : ℚ) + (off : ℚ)) (y : ℚ) text glow
      let im3 := drawText im2 (x : ℚ) ((y : ℚ) - (off : ℚ)) text glow
      drawText im3 (x : ℚ) ((y : ℚ) + (off : ℚ)) text glow) img
    drawText img2 (x : ℚ) (y : ℚ) text "#FFFFFF"

/-- `TextAnimator.create_frames`: fixes `width, height = 800, 400`, looks the
style name up in the dictionary (`KeyError` when absent), dispatches on the
name, and returns the accumulated frame list (`[]` on fall-through).  The
ambient `random` state is an extra explicit argument; only the matrix branch
consumes it. -/
noncomputable def create_frames (font : FontMetrics) (rng : Rng) (text : String)
    (style : String) (fps : ℕ) (duration : ℚ) : Except PyErr (List Frame) :=
  let width := 800
  let height := 400
  match styles.lookup style with
  | none => .error .keyError
  | some cfg =>
    if style = "typewriter" then
      create_typewriter_effect font text width height cfg fps duration
    else if style = "bounce" then
      .ok (create_bounce_effect font text width height cfg fps duration)
    else if style = "matrix" then
      .ok (create_matrix_effect font rng text width height cfg fps duration).1
    else if style = "rainbow" then
      .ok (create_rainbow_effect font text width height cfg fps duration)
    else if style = "neon" then
      .ok (create_neon_effect font text width height cfg fps duration)
    else .ok []

/-!
The video-encoding block of `main` (src lines 290-310):

    with tempfile.NamedTemporaryFile(suffix='.mp4', delete=False) as tmp_file:
        clip = ImageSequenceClip(frames, fps=fps)
        clip.write_videofile(tmp_file.name, ...)
        ...
        with open(tmp_file.name, 'rb') as f:
            video_bytes = f.read()
        os.unlink(tmp_file.name)
    ...
    except Exception as e:
        st.error(...)

`delete=False` means the context manager does not remove the file on exit;
the only deletion is the `os.unlink` on the success path.  Whether the
library steps succeed depends on the environment (disk, codec), modelled as
two booleans; `ImageSequenceClip` on an empty frame list fails before
writing.  The model tracks, at return, whether the call succeeded and
whether the staging file is still present on disk.
-/

/-- Environment faults the encoding step is exposed to: whether
`clip.write_videofile` and the read-back of the staging file succeed. -/
structure EncodeEnv where
  writeSucceeds : Bool
  readSucceeds : Bool
deriving DecidableEq

/-- Observable outcome of the encoding block: did it succeed, and is the
temporary staging file still present afterwards. -/
structure EncodeResult where
  ok : Bool
  tmpFilePresent : Bool
deriving DecidableEq

/-- The encoding block of `main`: the staging file is created up front
(`NamedTemporaryFile(delete=False)`), and `os.unlink` runs only after a
successful write and read; any raised exception lands in the generic
`except` branch, which performs no cleanup. -/
def encode_video (frames : List Frame) (fps : ℕ) (env : EncodeEnv) : EncodeResult :=
  if frames.isEmpty then ⟨false, true⟩
  else if !env.writeSucceeds then ⟨false, true⟩
  else if !env.readSucceeds then ⟨false, true⟩
  else ⟨true, false⟩

/-! ### Generic helper lemmas -/

theorem getD_map_range {α : Type} [Inhabited α] (f : ℕ → α) {n i : ℕ} (h : i < n) :
    ((List.range n).map f).getD i default = f i := by
  simp [List.getD_eq_getElem?_getD, List.getElem?_map, List.getElem?_range, h]

theorem foldl_drawOps {α : Type} (op : α → DrawOp) :
    ∀ (l : List α) (img : Frame),
      l.foldl (fun im a => { im with ops := im.ops ++ [op a] }) img
        = { img with ops := img.ops ++ l.map op } := by
  intro l
  induction l with
  | nil => intro img; simp
  | cons a l ih => intro img; rw [List.foldl_cons, ih]; simp

/-! ### Shape lemmas for the five effects -/

theorem typewriter_ok (font : FontMetrics) (text : String) (w h : ℕ)
    (sty : AnimationStyle) (fps : ℕ) (d : ℚ) (hne : totalFrames fps d ≠ 0) :
    create_typewriter_effect font text w h sty fps d =
      .ok ((List.range (totalFrames fps d)).map fun i =>
        (⟨w, h, sty.background,
          [⟨(originX font text w : ℚ), (originY font text h : ℚ),
            text.take (i * max 1 (text.length / totalFrames fps d)),
            sty.colors.getD 0 ""⟩]⟩ : Frame)) := by
  simp [create_typewriter_effect, hne, create_base_frame, drawText]

theorem typewriter_err (font : FontMetrics) (text : String) (w h : ℕ)
    (sty : AnimationStyle) (fps : ℕ) (d : ℚ) (h0 : totalFrames fps d = 0) :
    create_typewriter_effect font text w h sty fps d = .error .zeroDivisionError := by
  simp [create_typewriter_effect, h0]

theorem bounce_eq (font : FontMetrics) (text : String) (w h : ℕ)
    (sty : AnimationStyle) (fps : ℕ) (d : ℚ) :
    create_bounce_effect font text w h sty fps d =
      (List.range (totalFrames fps d)).map fun i =>
        (⟨w, h, sty.background,
          [⟨(originX font text w : ℚ), (originY font text h : ℚ) + (bounce_offset i fps : ℚ),
            text, sty.colors.getD 0 ""⟩]⟩ : Frame) := by
  simp [create_bounce_effect, create_base_frame, drawText]

theorem rainbow_eq (font : FontMetrics) (text : String) (w h : ℕ)
    (sty : AnimationStyle) (fps : ℕ) (d : ℚ) :
    create_rainbow_effect font text w h sty fps d =
      (List.range (totalFrames fps d)).map fun i =>
        (⟨w, h, sty.background,
          text.toList.enum.map fun jc =>
            (⟨(originX font text w : ℚ) + font.textlength (text.take jc.1),
              (originY font text h : ℚ), String.mk [jc.2],
              sty.colors.getD ((i + jc.1) % sty.colors.length) ""⟩ : DrawOp)⟩ : Frame) := by
  unfold create_rainbow_effect
  refine List.map_congr_left fun i _ => ?_
  refine (foldl_drawOps (fun jc =>
    (⟨(originX font text w : ℚ) + font.textlength (text.take jc.1),
      (originY font text h : ℚ), String.mk [jc.2],
      sty.colors.getD ((i + jc.1) % sty.colors.length) ""⟩ : DrawOp))
    text.toList.enum ⟨w, h, sty.background, []⟩).trans ?_
  simp

theorem runMatrix_cons (font : FontMetrics) (text : String) (w h : ℕ)
    (sty : AnimationStyle) (i : ℕ) (is : List ℕ) (r : Rng) :
    runMatrix font text w h sty (i :: is) r =
      ((matrixFrame font text w h sty r).1 ::
        (runMatrix font text w h sty is (matrixFrame font text w h sty r).2).1,
       (runMatrix font text w h sty is (matrixFrame font text w h sty r).2).2) := rfl

theorem runMatrix_length (font : FontMetrics) (text : String) (w h : ℕ)
    (sty : AnimationStyle) :
    ∀ (is : List ℕ) (r : Rng), (runMatrix font text w h sty is r).1.length = is.length := by
  intro is
  induction is with
  | nil => intro r; rfl
  | cons i is ih => intro r; rw [runMatrix_cons]; simp [ih]

theorem matrixCellStep_shape (h : ℕ) (acc : Frame × Rng) (c : ℕ × ℕ) :
    ∃ extra r1, matrixCellStep h acc c = ({ acc.1 with ops := acc.1.ops ++ extra }, r1) := by
  obtain ⟨img, r⟩ := acc
  have hdef : matrixCellStep h (img, r) c =
      if (r.next).1 < 1/10 then
        (drawText img (c.1 : ℚ) (c.2 : ℚ) (String.mk [(randChoice matrix_chars (r.next).2).1])
          ("#" ++ hex2 0 ++ hex2 ((pyIntQ (255 * (1 - (c.2 : ℚ) / (h : ℚ)))).toNat) ++ hex2 0),
         (randChoice matrix_chars (r.next).2).2)
      else (img, (r.next).2) := rfl
  by_cases hp : (r.next).1 < 1/10
  · rw [hdef, if_pos hp]
    exact ⟨_, _, rfl⟩
  · rw [hdef, if_neg hp]
    exact ⟨[], (r.next).2, by simp⟩

theorem foldl_shape_gen {σ : Type} (step : Frame × σ → ℕ × ℕ → Frame × σ)
    (hstep : ∀ acc c, ∃ extra s1, step acc c = ({ acc.1 with ops := acc.1.ops ++ extra }, s1)) :
    ∀ (cells : List (ℕ × ℕ)) (img : Frame) (s : σ),
      ∃ extra s2, cells.foldl step (img, s) = ({ img with ops := img.ops ++ extra }, s2) := by
  intro cells
  induction cells with
  | nil => intro img s; exact ⟨[], s, by simp⟩
  | cons c cs ih =>
    intro img s
    obtain ⟨e1, s1, h1⟩ := hstep (img, s) c
    obtain ⟨e2, s2, h2⟩ := ih { img with ops := img.ops ++ e1 } s1
    refine ⟨e1 ++ e2, s2, ?_⟩
    rw [List.foldl_cons, h1, h2]
    simp

theorem matrixFrame_shape (font : FontMetrics) (text : String) (w h : ℕ)
    (sty : AnimationStyle) (r : Rng) :
    ∃ noise, (matrixFrame font text w h sty r).1 =
      ⟨w, h, sty.background,
       noise ++ [⟨(originX font text w : ℚ), (originY font text h : ℚ), text,
                  sty.colors.getD 0 ""⟩]⟩ := by
  obtain ⟨extra, s2, heq⟩ := foldl_shape_gen (matrixCellStep h) (matrixCellStep_shape h)
    (matrixCells w h) ⟨w, h, sty.background, []⟩ r
  refine ⟨extra, ?_⟩
  simp only [matrixFrame, create_base_frame]
  rw [heq]
  simp [drawText]

theorem runMatrix_mem_shape (font : FontMetrics) (text : String) (w h : ℕ)
    (sty : AnimationStyle) :
    ∀ (is : List ℕ) (r : Rng) (fr : Frame), fr ∈ (runMatrix font text w h sty is r).1 →
      fr.width = w ∧ fr.height = h := by
  intro is
  induction is with
  | nil => intro r fr hfr; simp [runMatrix] at hfr
  | cons i is ih =>
    intro r fr hfr
    rw [runMatrix_cons] at hfr
    rcases List.mem_cons.mp hfr with hEq | hmem
    · obtain ⟨noise, hshape⟩ := matrixFrame_shape font text w h sty r
      rw [hEq, hshape]
      exact ⟨rfl, rfl⟩
    · exact ih _ fr hmem

theorem neon_eq (font : FontMetrics) (text : String) (w h : ℕ)
    (sty : AnimationStyle) (fps : ℕ) (d : ℚ) :
    create_neon_effect font text w h sty fps d =
      (List.range (totalFrames fps d)).map fun i =>
        (⟨w, h, sty.background,
          [⟨(originX font text w : ℚ) - 3, (originY font text h : ℚ), text,
            sty.colors.getD (i % sty.colors.length) ""⟩,
           ⟨(originX font text w : ℚ) + 3, (originY font text h : ℚ), text,
            sty.colors.getD (i % sty.colors.length) ""⟩,
           ⟨(originX font text w : ℚ), (originY font text h : ℚ) - 3, text,
            sty.colors.getD (i % sty.colors.length) ""⟩,
           ⟨(originX font text w : ℚ), (originY font text h : ℚ) + 3, text,
            sty.colors.getD (i % sty.colors.length) ""⟩,
           ⟨(originX font text w : ℚ) - 2, (originY font text h : ℚ), text,
            sty.colors.getD (i % sty.colors.length) ""⟩,
           ⟨(originX font text w : ℚ) + 2, (originY font text h : ℚ), text,
            sty.colors.getD (i % sty.colors.length) ""⟩,
           ⟨(originX font text w : ℚ), (originY font text h : ℚ) - 2, text,
            sty.colors.getD (i % sty.colors.length) ""⟩,
           ⟨(originX font text w : ℚ), (originY font text h : ℚ) + 2, text,
            sty.colors.getD (i % sty.colors.length) ""⟩,
           ⟨(originX font text w : ℚ) - 1, (originY font text h : ℚ), text,
            sty.colors.getD (i % sty.colors.length) ""⟩,
           ⟨(originX font text w : ℚ) + 1, (originY font text h : ℚ), text,
            sty.colors.getD (i % sty.colors.length) ""⟩,
           ⟨(originX font text w : ℚ), (originY font text h : ℚ) - 1, text,
            sty.colors.getD (i % sty.colors.length) ""⟩,
           ⟨(originX font text w : ℚ), (originY font text h : ℚ) + 1, text,
            sty.colors.getD (i % sty.colors.length) ""⟩,
           ⟨(originX font text w : ℚ), (originY font text h : ℚ), text, "#FFFFFF"⟩]⟩ : Frame) := by
  simp [create_neon_effect, create_base_frame, drawText]

/-! ### Shared concrete instances -/

/-- A concrete font metric (all measurements zero), standing for
`ImageFont.load_default()`. -/
def constFont : FontMetrics := ⟨fun _ => 0, fun _ => 0, fun _ => 0⟩

/-- A concrete `random` state whose every draw is `0` (every matrix cell
fires, since `0 < 0.1`). -/
def zeroRng : Rng := ⟨fun _ => 0, 0⟩

/-- A concrete `random` state whose every draw is `1/2` (no matrix cell
fires, since `1/2 ≥ 0.1`). -/
def halfRng : Rng := ⟨fun _ => 1/2, 0⟩

/-- A concrete frame for exercising the encoder. -/
def demoFrame : Frame := ⟨800, 400, "#000000", []⟩

/-! ### Arithmetic on the frame count -/

theorem totalFrames_natCast (fps d : ℕ) : totalFrames fps (d : ℚ) = fps * d := by
  have h1 : (fps : ℚ) * (d : ℚ) = ((fps * d : ℕ) : ℚ) := by push_cast; ring
  unfold totalFrames pyIntQ
  rw [h1, if_pos (Nat.cast_nonneg _), Int.floor_natCast, Int.toNat_natCast]

/-! ### Dispatch lemmas for `create_frames` -/

theorem create_frames_typewriter (font : FontMetrics) (rng : Rng) (text : String)
    (fps : ℕ) (d : ℚ) :
    create_frames font rng text "typewriter" fps d =
      create_typewriter_effect font text 800 400 typewriterStyle fps d := rfl

theorem create_frames_bounce (font : FontMetrics) (rng : Rng) (text : String)
    (fps : ℕ) (d : ℚ) :
    create_frames font rng text "bounce" fps d =
      .ok (create_bounce_effect font text 800 400 bounceStyle fps d) := rfl

theorem create_frames_matrix (font : FontMetrics) (rng : Rng) (text : String)
    (fps : ℕ) (d : ℚ) :
    create_frames font rng text "matrix" fps d =
      .ok (create_matrix_effect font rng text 800 400 matrixStyle fps d).1 := rfl

theorem create_frames_rainbow (font : FontMetrics) (rng : Rng) (text : String)
    (fps : ℕ) (d : ℚ) :
    create_frames font rng text "rainbow" fps d =
      .ok (create_rainbow_effect font text 800 400 rainbowStyle fps d) := rfl

theorem create_frames_neon (font : FontMetrics) (rng : Rng) (text : String)
    (fps : ℕ) (d : ℚ) :
    create_frames font rng text "neon" fps d =
      .ok (create_neon_effect font text 800 400 neonStyle fps d) := rfl

/-! ### Claim theorems -/

/-- C1 (code bug): the encoding block of `main` does NOT release the scoped
temporary output file on every exit path.  `NamedTemporaryFile` is opened
with `delete=False` and the only deletion is the `os.unlink` after a
successful write and read; when `clip.write_videofile` (or the read-back)
raises, control lands in the generic `except` branch with the staging file
still present on disk.  This theorem evaluates the model at the failing
inputs: a write failure and a read failure each leave the temporary file
present, while the success path deletes it. -/
theorem c1_tmpfile_leaks_on_encode_failure :
    (encode_video [demoFrame] 30 ⟨false, true⟩).ok = false ∧
    (encode_video [demoFrame] 30 ⟨false, true⟩).tmpFilePresent = true ∧
    (encode_video [demoFrame] 30 ⟨true, false⟩).tmpFilePresent = true ∧
    (encode_video [demoFrame] 30 ⟨true, true⟩).ok = true ∧
    (encode_video [demoFrame] 30 ⟨true, true⟩).tmpFilePresent = false := by
  decide

/-- C2 (confirmed): for every style among the five known kinds and every
valid request (any text, fps in 15..60, integer duration in 1..10),
`create_frames` succeeds and returns exactly `fps * duration` frames — which
equals `round(fps * durationSeconds)` since both are integers — each of the
800×400 canvas size, and the count is at least 1. -/
theorem c2_frame_count_and_size (font : FontMetrics) (rng : Rng) (text : String)
    (style : String)
    (hstyle : style ∈ ["typewriter", "bounce", "matrix", "rainbow", "neon"])
    (fps d : ℕ) (hfps1 : 15 ≤ fps) (hfps2 : fps ≤ 60) (hd1 : 1 ≤ d) (hd2 : d ≤ 10) :
    ∃ frames, create_frames font rng text style fps (d : ℚ) = .ok frames ∧
      frames.length = fps * d ∧ 1 ≤ frames.length ∧
      ∀ fr ∈ frames, fr.width = 800 ∧ fr.height = 400 := by
  have htot : totalFrames fps (d : ℚ) = fps * d := totalFrames_natCast fps d
  have hpos : 0 < fps * d := Nat.mul_pos (by omega) (by omega)
  simp only [List.mem_cons, List.not_mem_nil, or_false] at hstyle
  rcases hstyle with rfl | rfl | rfl | rfl | rfl
  · rw [create_frames_typewriter,
      typewriter_ok font text 800 400 typewriterStyle fps (d : ℚ) (by omega)]
    refine ⟨_, rfl, by simp [htot], by simp [htot]; omega, ?_⟩
    intro fr hfr
    obtain ⟨i, hi, rfl⟩ := List.mem_map.mp hfr
    exact ⟨rfl, rfl⟩
  · rw [create_frames_bounce, bounce_eq]
    refine ⟨_, rfl, by simp [htot], by simp [htot]; omega, ?_⟩
    intro fr hfr
    obtain ⟨i, hi, rfl⟩ := List.mem_map.mp hfr
    exact ⟨rfl, rfl⟩
  · rw [create_frames_matrix]
    refine ⟨_, rfl, ?_, ?_, ?_⟩
    · rw [create_matrix_effect, runMatrix_length]; simp [htot]
    · rw [create_matrix_effect, runMatrix_length]; simp [htot]; omega
    · intro fr hfr
      exact runMatrix_mem_shape font text 800 400 matrixStyle _ _ fr hfr
  · rw [create_frames_rainbow, rainbow_eq]
    refine ⟨_, rfl, by simp [htot], by simp [htot]; omega, ?_⟩
    intro fr hfr
    obtain ⟨i, hi, rfl⟩ := List.mem_map.mp hfr
    exact ⟨rfl, rfl⟩
  · rw [create_frames_neon, neon_eq]
    refine ⟨_, rfl, by simp [htot], by simp [htot]; omega, ?_⟩
    intro fr hfr
    obtain ⟨i, hi, rfl⟩ := List.mem_map.mp hfr
    exact ⟨rfl, rfl⟩

/-- Witness for C2 at a concrete valid request. -/
theorem c2_witness :
    ∃ frames,
      create_frames constFont zeroRng "Hi" "rainbow" 15 ((1 : ℕ) : ℚ) = .ok frames ∧
      frames.length = 15 * 1 ∧ 1 ≤ frames.length ∧
      ∀ fr ∈ frames, fr.width = 800 ∧ fr.height = 400 :=
  c2_frame_count_and_size constFont zeroRng "Hi" "rainbow" (by simp) 15 1
    (by omega) (by omega) (by omega) (by omega)

/-- C10 (confirmed): every frame produced by the frame-generation entry
point `create_frames` has dimensions exactly 800×400, for every font, RNG
state, text, style name, fps and duration.  The UI resolution (720p/1080p)
and quality selections are not parameters of `create_frames` at all — `main`
never passes them into frame generation — so the canvas size cannot depend
on them. -/
theorem c10_canvas_fixed_800x400 (font : FontMetrics) (rng : Rng) (text : String)
    (style : String) (fps : ℕ) (d : ℚ) (frames : List Frame)
    (hok : create_frames font rng text style fps d = .ok frames) :
    ∀ fr ∈ frames, fr.width = 800 ∧ fr.height = 400 := by
  by_cases h1 : style = "typewriter"
  · subst h1
    rw [create_frames_typewriter] at hok
    by_cases h0 : totalFrames fps d = 0
    · rw [typewriter_err font text 800 400 typewriterStyle fps d h0] at hok
      simp at hok
    · rw [typewriter_ok font text 800 400 typewriterStyle fps d h0, Except.ok.injEq] at hok
      subst hok
      intro fr hfr
      obtain ⟨i, hi, rfl⟩ := List.mem_map.mp hfr
      exact ⟨rfl, rfl⟩
  by_cases h2 : style = "bounce"
  · subst h2
    rw [create_frames_bounce, Except.ok.injEq] at hok
    subst hok
    rw [bounce_eq]
    intro fr hfr
    obtain ⟨i, hi, rfl⟩ := List.mem_map.mp hfr
    exact ⟨rfl, rfl⟩
  by_cases h3 : style = "matrix"
  · subst h3
    rw [create_frames_matrix, Except.ok.injEq] at hok
    subst hok
    intro fr hfr
    exact runMatrix_mem_shape font text 800 400 matrixStyle _ _ fr hfr
  by_cases h4 : style = "rainbow"
  · subst h4
    rw [create_frames_rainbow, Except.ok.injEq] at hok
    subst hok
    rw [rainbow_eq]
    intro fr hfr
    obtain ⟨i, hi, rfl⟩ := List.mem_map.mp hfr
    exact ⟨rfl, rfl⟩
  by_cases h5 : style = "neon"
  · subst h5
    rw [create_frames_neon, Except.ok.injEq] at hok
    subst hok
    rw [neon_eq]
    intro fr hfr
    obtain ⟨i, hi, rfl⟩ := List.mem_map.mp hfr
    exact ⟨rfl, rfl⟩
  · have hlk : styles.lookup style = none := by
      have e1 : (style == "neon") = false := by simp [h5]
      have e2 : (style == "typewriter") = false := by simp [h1]
      have e3 : (style == "bounce") = false := by simp [h2]
      have e4 : (style == "matrix") = false := by simp [h3]
      have e5 : (style == "rainbow") = false := by simp [h4]
      simp [styles, List.lookup, e1, e2, e3, e4, e5]
    rw [create_frames] at hok
    rw [hlk] at hok
    simp at hok

/-- Witness for C10 at a concrete request. -/
theorem c10_witness :
    ((create_rainbow_effect constFont "Hi" 800 400 rainbowStyle 1 ((1 : ℕ) : ℚ)).headD
        default).width = 800 ∧
    ((create_rainbow_effect constFont "Hi" 800 400 rainbowStyle 1 ((1 : ℕ) : ℚ)).headD
        default).height = 400 := by
  refine c10_canvas_fixed_800x400 constFont zeroRng "Hi" "rainbow" 1 ((1 : ℕ) : ℚ) _ rfl _ ?_
  have ht : totalFrames 1 ((1 : ℕ) : ℚ) = 1 := by
    rw [totalFrames_natCast]
  rw [rainbow_eq, ht]
  simp [show List.range 1 = [0] from rfl]


/-! ### Typewriter helpers -/

theorem string_length_take (s : String) (n : ℕ) : (s.take n).length = min n s.length := by
  rw [String.take_eq]
  show (s.data.take n).length = min n s.data.length
  exact List.length_take n s.data

theorem string_take_empty (n : ℕ) : ("" : String).take n = "" := by
  rw [String.take_eq]
  show (⟨List.take n []⟩ : String) = ⟨[]⟩
  cases n <;> rfl

/-- The string drawn in frame `i` of the typewriter effect (at the fixed
800×400 canvas and the catalog typewriter style). -/
def typewriterShownAt (font : FontMetrics) (text : String) (fps : ℕ) (d : ℚ) (i : ℕ) :
    String :=
  ((((create_typewriter_effect font text 800 400 typewriterStyle fps d).toOption.getD
      []).getD i default).ops.getD 0 default).text

theorem typewriterShownAt_eq (font : FontMetrics) (text : String) (fps : ℕ) (d : ℚ)
    (i : ℕ) (hi : i < totalFrames fps d) :
    typewriterShownAt font text fps d i =
      text.take (i * max 1 (text.length / totalFrames fps d)) := by
  unfold typewriterShownAt
  rw [typewriter_ok font text 800 400 typewriterStyle fps d (by omega)]
  simp only [Except.toOption, Option.getD_some]
  rw [getD_map_range _ hi]
  rfl

/-- The spec's stated typewriter formula, written from the spec's words for
comparison with the code:
`charsShown = floor(frameIndex * (len(text)/totalFrames))`, clamped to
`[0, len(text)]`. -/
def specTypewriterCharsShown (len total i : ℕ) : ℕ := min len (i * len / total)

/-- C3 (counterexample): the claim's formula fails on the code.  With text
`"Hello"` (5 chars), fps 20, duration 1 (20 frames), frame 1 draws `"H"` —
one character — while `floor(1 * (5/20)) = 0`.  The code uses
`chars_per_frame = max(1, len // total)`, not `floor(i * len/total)`. -/
theorem c3_counterexample :
    (typewriterShownAt constFont "Hello" 20 ((1 : ℕ) : ℚ) 1).length ≠
      specTypewriterCharsShown "Hello".length (totalFrames 20 ((1 : ℕ) : ℚ)) 1 := by
  have ht : totalFrames 20 ((1 : ℕ) : ℚ) = 20 := by rw [totalFrames_natCast]
  rw [typewriterShownAt_eq constFont "Hello" 20 ((1 : ℕ) : ℚ) 1 (by omega), ht]
  decide

/-- C3 (corrected): for every font, text, fps, duration and frame index
`i < totalFrames`, typewriter frame `i` consists of exactly one draw call at
the centered origin, drawing `text[0 : i * max(1, len(text) //
totalFrames)]` (Python slicing clamps at `len(text)`, so the number of
characters drawn is `min(len(text), i * max(1, len(text) // totalFrames))`)
in the single color `colors[0]`. -/
theorem c3_typewriter_chars_shown (font : FontMetrics) (text : String)
    (fps : ℕ) (d : ℚ) (i : ℕ) (hi : i < totalFrames fps d) :
    ∃ frames,
      create_typewriter_effect font text 800 400 typewriterStyle fps d = .ok frames ∧
      frames.getD i default =
        ⟨800, 400, typewriterStyle.background,
         [⟨(originX font text 800 : ℚ), (originY font text 400 : ℚ),
           text.take (i * max 1 (text.length / totalFrames fps d)),
           typewriterStyle.colors.getD 0 ""⟩]⟩ ∧
      (text.take (i * max 1 (text.length / totalFrames fps d))).length =
        min text.length (i * max 1 (text.length / totalFrames fps d)) := by
  rw [typewriter_ok font text 800 400 typewriterStyle fps d (by omega)]
  refine ⟨_, rfl, ?_, ?_⟩
  · rw [getD_map_range _ hi]
  · rw [string_length_take]
    omega

/-- Witness for C3's corrected statement at a concrete input. -/
theorem c3_witness :
    ∃ frames,
      create_typewriter_effect constFont "Hello" 800 400 typewriterStyle 20 ((1 : ℕ) : ℚ) =
        .ok frames ∧
      frames.getD 1 default =
        ⟨800, 400, typewriterStyle.background,
         [⟨(originX constFont "Hello" 800 : ℚ), (originY constFont "Hello" 400 : ℚ),
           "Hello".take (1 * max 1 ("Hello".length / totalFrames 20 ((1 : ℕ) : ℚ))),
           typewriterStyle.colors.getD 0 ""⟩]⟩ ∧
      ("Hello".take (1 * max 1 ("Hello".length / totalFrames 20 ((1 : ℕ) : ℚ)))).length =
        min "Hello".length (1 * max 1 ("Hello".length / totalFrames 20 ((1 : ℕ) : ℚ))) :=
  c3_typewriter_chars_shown constFont "Hello" 20 ((1 : ℕ) : ℚ) 1
    (by rw [totalFrames_natCast]; omega)

/-- C4 (counterexample): the number of characters shown does NOT reach
`len(text)` at the final frame in general: with a 20-character text, fps 20,
duration 1 (20 frames), the last frame (index 19) draws only 19 characters.
-/
theorem c4_counterexample :
    (typewriterShownAt constFont "ABCDEFGHIJKLMNOPQRST" 20 ((1 : ℕ) : ℚ) 19).length ≠
      ("ABCDEFGHIJKLMNOPQRST" : String).length := by
  have ht : totalFrames 20 ((1 : ℕ) : ℚ) = 20 := by rw [totalFrames_natCast]
  rw [typewriterShownAt_eq constFont "ABCDEFGHIJKLMNOPQRST" 20 ((1 : ℕ) : ℚ) 19 (by omega),
    ht]
  decide

/-- C4 (corrected): the characters shown are non-decreasing in the frame
index, and the final frame shows all of `text` **provided**
`len(text) < totalFrames`; the concrete scenario of the claim (text
`"Hello"`, fps 20, duration 1 → 20 frames) does hold: frame 0 shows `""`
and frame 19 shows `"Hello"`. -/
theorem c4_typewriter_monotone (font : FontMetrics) (text : String)
    (fps : ℕ) (d : ℚ) (i j : ℕ) (hij : i ≤ j) (hj : j < totalFrames fps d) :
    (typewriterShownAt font text fps d i).length ≤
      (typewriterShownAt font text fps d j).length ∧
    (text.length < totalFrames fps d →
      (typewriterShownAt font text fps d (totalFrames fps d - 1)).length = text.length) ∧
    typewriterShownAt constFont "Hello" 20 ((1 : ℕ) : ℚ) 0 = "" ∧
    typewriterShownAt constFont "Hello" 20 ((1 : ℕ) : ℚ) 19 = "Hello" := by
  have ht : totalFrames 20 ((1 : ℕ) : ℚ) = 20 := by rw [totalFrames_natCast]
  refine ⟨?_, ?_, ?_, ?_⟩
  · rw [typewriterShownAt_eq font text fps d i (by omega),
      typewriterShownAt_eq font text fps d j hj, string_length_take, string_length_take]
    exact min_le_min (Nat.mul_le_mul_right _ hij) (le_refl _)
  · intro hlen
    rw [typewriterShownAt_eq font text fps d (totalFrames fps d - 1) (by omega),
      string_length_take]
    have hdiv : text.length / totalFrames fps d = 0 := Nat.div_eq_of_lt hlen
    rw [hdiv, show max 1 0 = 1 from rfl, Nat.mul_one]
    omega
  · rw [typewriterShownAt_eq constFont "Hello" 20 ((1 : ℕ) : ℚ) 0 (by omega), ht]
    decide
  · rw [typewriterShownAt_eq constFont "Hello" 20 ((1 : ℕ) : ℚ) 19 (by omega), ht]
    decide

/-- Witness for C4's corrected statement at a concrete input. -/
theorem c4_witness :
    (typewriterShownAt constFont "Hello" 20 ((1 : ℕ) : ℚ) 0).length ≤
      (typewriterShownAt constFont "Hello" 20 ((1 : ℕ) : ℚ) 1).length ∧
    (("Hello" : String).length < totalFrames 20 ((1 : ℕ) : ℚ) →
      (typewriterShownAt constFont "Hello" 20 ((1 : ℕ) : ℚ)
          (totalFrames 20 ((1 : ℕ) : ℚ) - 1)).length = ("Hello" : String).length) ∧
    typewriterShownAt constFont "Hello" 20 ((1 : ℕ) : ℚ) 0 = "" ∧
    typewriterShownAt constFont "Hello" 20 ((1 : ℕ) : ℚ) 19 = "Hello" :=
  c4_typewriter_monotone constFont "Hello" 20 ((1 : ℕ) : ℚ) 0 1 (by omega)
    (by rw [totalFrames_natCast]; omega)

/-- C6 (counterexample): with fps = 0 the generation call does not fail with
any error for the bounce style (and likewise matrix/rainbow/neon): it
silently returns an empty frame list. -/
theorem c6_counterexample :
    create_frames constFont zeroRng "Hi" "bounce" 0 ((3 : ℕ) : ℚ) = .ok [] := by
  have ht : totalFrames 0 ((3 : ℕ) : ℚ) = 0 := by rw [totalFrames_natCast]
  rw [create_frames_bounce, bounce_eq, ht]
  rfl

/-- C6 (corrected): when fps = 0 or duration = 0 the computed `total_frames`
is 0 and no `InvalidRequest` error exists in the code: the typewriter branch
dies with an (uncaught) ZeroDivisionError from `len(text) // total_frames`,
while bounce, matrix, rainbow and neon silently return an empty frame list;
frame generation itself creates no temporary resource (the staging file
belongs to the later encoding block). -/
theorem c6_zero_request (font : FontMetrics) (rng : Rng) (text : String)
    (fps d : ℕ) (h0 : fps = 0 ∨ d = 0) :
    create_frames font rng text "typewriter" fps (d : ℚ) = .error .zeroDivisionError ∧
    create_frames font rng text "bounce" fps (d : ℚ) = .ok [] ∧
    create_frames font rng text "matrix" fps (d : ℚ) = .ok [] ∧
    create_frames font rng text "rainbow" fps (d : ℚ) = .ok [] ∧
    create_frames font rng text "neon" fps (d : ℚ) = .ok [] := by
  have ht : totalFrames fps (d : ℚ) = 0 := by
    rcases h0 with rfl | rfl <;> rw [totalFrames_natCast] <;> omega
  refine ⟨?_, ?_, ?_, ?_, ?_⟩
  · rw [create_frames_typewriter, typewriter_err font text 800 400 typewriterStyle fps _ ht]
  · rw [create_frames_bounce, bounce_eq, ht]; rfl
  · rw [create_frames_matrix, create_matrix_effect, ht]; rfl
  · rw [create_frames_rainbow, rainbow_eq, ht]; rfl
  · rw [create_frames_neon, neon_eq, ht]; rfl

/-- Witness for C6's corrected statement at fps = 0, duration = 3. -/
theorem c6_witness :
    create_frames constFont zeroRng "Hi" "typewriter" 0 ((3 : ℕ) : ℚ) =
      .error .zeroDivisionError ∧
    create_frames constFont zeroRng "Hi" "bounce" 0 ((3 : ℕ) : ℚ) = .ok [] ∧
    create_frames constFont zeroRng "Hi" "matrix" 0 ((3 : ℕ) : ℚ) = .ok [] ∧
    create_frames constFont zeroRng "Hi" "rainbow" 0 ((3 : ℕ) : ℚ) = .ok [] ∧
    create_frames constFont zeroRng "Hi" "neon" 0 ((3 : ℕ) : ℚ) = .ok [] :=
  c6_zero_request constFont zeroRng "Hi" 0 3 (Or.inl rfl)

/-! ### Evaluating the matrix effect on concrete RNG streams -/

theorem matrixCellStep_eq (h : ℕ) (img : Frame) (r : Rng) (c : ℕ × ℕ) :
    matrixCellStep h (img, r) c =
      if (r.next).1 < 1/10 then
        (drawText img (c.1 : ℚ) (c.2 : ℚ) (String.mk [(randChoice matrix_chars (r.next).2).1])
          ("#" ++ hex2 0 ++ hex2 ((pyIntQ (255 * (1 - (c.2 : ℚ) / (h : ℚ)))).toNat) ++ hex2 0),
         (randChoice matrix_chars (r.next).2).2)
      else (img, (r.next).2) := rfl

theorem randChoice_zero (k : ℕ) :
    randChoice matrix_chars ⟨fun _ => 0, k⟩ = ('A', ⟨fun _ => 0, k + 1⟩) := by
  have hidx : Int.toNat ⌊(0 : ℚ) * ((matrix_chars.length : ℕ) : ℚ)⌋ = 0 := by norm_num
  show (matrix_chars.getD (Int.toNat ⌊(0 : ℚ) * (matrix_chars.length : ℚ)⌋) 'A',
    (⟨fun _ => 0, k + 1⟩ : Rng)) = _
  rw [hidx]
  rfl

/-- The glyph operation the matrix cell `(col, row)` emits when the lit-test
draw and the choice draw are both `0`. -/
def zeroOp (h : ℕ) (c : ℕ × ℕ) : DrawOp :=
  ⟨(c.1 : ℚ), (c.2 : ℚ), "A",
   "#" ++ hex2 0 ++ hex2 ((pyIntQ (255 * (1 - (c.2 : ℚ) / (h : ℚ)))).toNat) ++ hex2 0⟩

theorem matrixCellStep_zero (h k : ℕ) (img : Frame) (c : ℕ × ℕ) :
    matrixCellStep h (img, ⟨fun _ => 0, k⟩) c =
      ({ img with ops := img.ops ++ [zeroOp h c] }, ⟨fun _ => 0, k + 2⟩) := by
  rw [matrixCellStep_eq]
  have hp : ((⟨fun _ => 0, k⟩ : Rng).next).1 < 1/10 := by
    show (0 : ℚ) < 1/10
    norm_num
  rw [if_pos hp]
  show (drawText img _ _ (String.mk [(randChoice matrix_chars ⟨fun _ => 0, k + 1⟩).1]) _,
      (randChoice matrix_chars ⟨fun _ => 0, k + 1⟩).2) = _
  rw [randChoice_zero]
  rfl

theorem matrixCellStep_half (h k : ℕ) (img : Frame) (c : ℕ × ℕ) :
    matrixCellStep h (img, ⟨fun _ => 1/2, k⟩) c = (img, ⟨fun _ => 1/2, k + 1⟩) := by
  rw [matrixCellStep_eq]
  have hp : ¬ ((⟨fun _ => 1/2, k⟩ : Rng).next).1 < 1/10 := by
    show ¬ ((1 : ℚ)/2 < 1/10)
    norm_num
  rw [if_neg hp]
  rfl

theorem foldl_matrixCellStep_zero (h : ℕ) :
    ∀ (cells : List (ℕ × ℕ)) (img : Frame) (k : ℕ),
      cells.foldl (matrixCellStep h) (img, ⟨fun _ => 0, k⟩) =
        ({ img with ops := img.ops ++ cells.map (zeroOp h) },
         ⟨fun _ => 0, k + 2 * cells.length⟩) := by
  intro cells
  induction cells with
  | nil => intro img k; simp
  | cons c cs ih =>
    intro img k
    rw [List.foldl_cons, matrixCellStep_zero h k img c, ih]
    refine Prod.ext ?_ ?_
    · simp
    · show (⟨fun _ => 0, k + 2 + 2 * cs.length⟩ : Rng) = ⟨fun _ => 0, k + 2 * (c :: cs).length⟩
      simp [Rng.mk.injEq]
      omega

theorem foldl_matrixCellStep_half (h : ℕ) :
    ∀ (cells : List (ℕ × ℕ)) (img : Frame) (k : ℕ),
      cells.foldl (matrixCellStep h) (img, ⟨fun _ => 1/2, k⟩) =
        (img, ⟨fun _ => 1/2, k + cells.length⟩) := by
  intro cells
  induction cells with
  | nil => intro img k; simp
  | cons c cs ih =>
    intro img k
    rw [List.foldl_cons, matrixCellStep_half h k img c, ih]
    refine Prod.ext rfl ?_
    show (⟨fun _ => 1/2, k + 1 + cs.length⟩ : Rng) = ⟨fun _ => 1/2, k + (c :: cs).length⟩
    simp [Rng.mk.injEq]
    omega

theorem matrixFrame_zero (font : FontMetrics) (text : String) (w h : ℕ)
    (sty : AnimationStyle) (k : ℕ) :
    matrixFrame font text w h sty ⟨fun _ => 0, k⟩ =
      (⟨w, h, sty.background,
        (matrixCells w h).map (zeroOp h) ++
          [⟨(originX font text w : ℚ), (originY font text h : ℚ), text,
            sty.colors.getD 0 ""⟩]⟩,
       ⟨fun _ => 0, k + 2 * (matrixCells w h).length⟩) := by
  simp only [matrixFrame, create_base_frame]
  rw [foldl_matrixCellStep_zero]
  simp [drawText]

theorem matrixFrame_half (font : FontMetrics) (text : String) (w h : ℕ)
    (sty : AnimationStyle) (k : ℕ) :
    matrixFrame font text w h sty ⟨fun _ => 1/2, k⟩ =
      (⟨w, h, sty.background,
        [⟨(originX font text w : ℚ), (originY font text h : ℚ), text,
          sty.colors.getD 0 ""⟩]⟩,
       ⟨fun _ => 1/2, k + (matrixCells w h).length⟩) := by
  simp only [matrixFrame, create_base_frame]
  rw [foldl_matrixCellStep_half]
  simp [drawText]

theorem runMatrix_cons_head (font : FontMetrics) (text : String) (w h : ℕ)
    (sty : AnimationStyle) (i : ℕ) (is : List ℕ) (r : Rng) :
    (matrixFrame font text w h sty r).1 ∈ (runMatrix font text w h sty (i :: is) r).1 := by
  rw [runMatrix_cons]
  exact List.mem_cons_self _ _

set_option maxRecDepth 10000 in
theorem matrixCells_length : (matrixCells 800 400).length = 560 := by decide

/-- C5 (counterexample): the matrix renderer is NOT a deterministic
stateless function of (text, style, frame index, total frame count, frame
rate, canvas size): two calls with identical explicit inputs but different
ambient `random` module states produce different frames — a stream of draws
all below 0.1 lights every grid cell (560 glyph operations), a stream of
draws equal to 0.5 lights none. -/
theorem c5_counterexample :
    (create_matrix_effect constFont zeroRng "" 800 400 matrixStyle 1 ((1 : ℕ) : ℚ)).1 ≠
    (create_matrix_effect constFont halfRng "" 800 400 matrixStyle 1 ((1 : ℕ) : ℚ)).1 := by
  have ht : totalFrames 1 ((1 : ℕ) : ℚ) = 1 := by rw [totalFrames_natCast]
  have h1 : (create_matrix_effect constFont zeroRng "" 800 400 matrixStyle 1
      ((1 : ℕ) : ℚ)).1 = [(matrixFrame constFont "" 800 400 matrixStyle zeroRng).1] := by
    rw [create_matrix_effect, ht, show List.range 1 = [0] from rfl, runMatrix_cons]
    rfl
  have h2 : (create_matrix_effect constFont halfRng "" 800 400 matrixStyle 1
      ((1 : ℕ) : ℚ)).1 = [(matrixFrame constFont "" 800 400 matrixStyle halfRng).1] := by
    rw [create_matrix_effect, ht, show List.range 1 = [0] from rfl, runMatrix_cons]
    rfl
  intro hEq
  rw [h1, h2, show zeroRng = (⟨fun _ => 0, 0⟩ : Rng) from rfl,
    show halfRng = (⟨fun _ => 1/2, 0⟩ : Rng) from rfl,
    congrArg Prod.fst (matrixFrame_zero constFont "" 800 400 matrixStyle 0),
    congrArg Prod.fst (matrixFrame_half constFont "" 800 400 matrixStyle 0)] at hEq
  injection hEq with hfr _
  have hops := congrArg Frame.ops hfr
  have hlen := congrArg List.length hops
  rw [List.length_append, List.length_map, List.length_singleton] at hlen
  have hc : (matrixCells 800 400).length = 560 := matrixCells_length
  omega

/-- C5 (corrected): the typewriter, bounce, rainbow and neon renderers are
deterministic stateless functions of their explicit inputs — in particular
the ambient `random` module state has no influence on them — but the matrix
renderer reads and advances the global `random` state, so it is not. -/
theorem c5_nonmatrix_rng_independent (font : FontMetrics) (r1 r2 : Rng) (text : String)
    (style : String) (fps : ℕ) (d : ℚ)
    (hstyle : style ∈ ["typewriter", "bounce", "rainbow", "neon"]) :
    create_frames font r1 text style fps d = create_frames font r2 text style fps d := by
  simp only [List.mem_cons, List.not_mem_nil, or_false] at hstyle
  rcases hstyle with rfl | rfl | rfl | rfl
  · rw [create_frames_typewriter, create_frames_typewriter]
  · rw [create_frames_bounce, create_frames_bounce]
  · rw [create_frames_rainbow, create_frames_rainbow]
  · rw [create_frames_neon, create_frames_neon]

/-- Witness for C5's corrected statement: two different RNG states, same
bounce output. -/
theorem c5_witness :
    create_frames constFont zeroRng "Hi" "bounce" 15 ((1 : ℕ) : ℚ) =
      create_frames constFont halfRng "Hi" "bounce" 15 ((1 : ℕ) : ℚ) :=
  c5_nonmatrix_rng_independent constFont zeroRng halfRng "Hi" "bounce" 15 ((1 : ℕ) : ℚ)
    (by simp)

/-- C7 (counterexample): for the matrix style the claim fails.  With empty
text, fps 20, duration 1 and an ambient `random` state whose draws all fall
below 0.1, frame 0 contains glyph draw operations (e.g. the glyph `"A"` at
cell `(0, 0)`): the pixel content is not the background color only. -/
theorem c7_counterexample :
    ¬ (∀ fr ∈ (create_matrix_effect constFont zeroRng "" 800 400 matrixStyle 20
        ((1 : ℕ) : ℚ)).1, ∀ op ∈ fr.ops, op.text = "") := by
  intro hAll
  have ht : totalFrames 20 ((1 : ℕ) : ℚ) = 20 := by rw [totalFrames_natCast]
  have hmem : (matrixFrame constFont "" 800 400 matrixStyle zeroRng).1 ∈
      (create_matrix_effect constFont zeroRng "" 800 400 matrixStyle 20 ((1 : ℕ) : ℚ)).1 := by
    rw [create_matrix_effect, ht, show (20 : ℕ) = 19 + 1 from rfl, List.range_succ_eq_map]
    exact runMatrix_cons_head constFont "" 800 400 matrixStyle 0 _ zeroRng
  have hz := congrArg Prod.fst (matrixFrame_zero constFont "" 800 400 matrixStyle 0)
  have hop : zeroOp 400 (0, 0) ∈ (matrixFrame constFont "" 800 400 matrixStyle zeroRng).1.ops := by
    rw [show zeroRng = (⟨fun _ => 0, 0⟩ : Rng) from rfl, hz]
    refine List.mem_append_left _ (List.mem_map.mpr ⟨(0, 0), ?_, rfl⟩)
    decide
  have hA := hAll _ hmem _ hop
  exact absurd hA (by decide)

/-- C7 (corrected): for every style and a valid request with empty text,
generation does not fail and yields the full frame count; for typewriter,
bounce, rainbow and neon every draw operation draws the empty string, so
the frame shows the background only — but the matrix style still draws its
random glyph field on top of the background. -/
theorem c7_empty_text_background (font : FontMetrics) (rng : Rng) (style : String)
    (hstyle : style ∈ ["typewriter", "bounce", "matrix", "rainbow", "neon"])
    (fps d : ℕ) (hfps1 : 15 ≤ fps) (hfps2 : fps ≤ 60) (hd1 : 1 ≤ d) (hd2 : d ≤ 10) :
    ∃ frames, create_frames font rng "" style fps (d : ℚ) = .ok frames ∧
      frames.length = fps * d ∧
      (style ≠ "matrix" → ∀ fr ∈ frames, ∀ op ∈ fr.ops, op.text = "") := by
  have htot : totalFrames fps (d : ℚ) = fps * d := totalFrames_natCast fps d
  have hpos : 0 < fps * d := Nat.mul_pos (by omega) (by omega)
  simp only [List.mem_cons, List.not_mem_nil, or_false] at hstyle
  rcases hstyle with rfl | rfl | rfl | rfl | rfl
  · rw [create_frames_typewriter,
      typewriter_ok font "" 800 400 typewriterStyle fps (d : ℚ) (by omega)]
    refine ⟨_, rfl, by simp [htot], ?_⟩
    intro _ fr hfr op hop
    obtain ⟨i, hi, rfl⟩ := List.mem_map.mp hfr
    fin_cases hop
    exact string_take_empty _
  · rw [create_frames_bounce, bounce_eq]
    refine ⟨_, rfl, by simp [htot], ?_⟩
    intro _ fr hfr op hop
    obtain ⟨i, hi, rfl⟩ := List.mem_map.mp hfr
    fin_cases hop
    rfl
  · rw [create_frames_matrix]
    refine ⟨_, rfl, ?_, ?_⟩
    · rw [create_matrix_effect, runMatrix_length]; simp [htot]
    · intro hne; exact absurd rfl hne
  · rw [create_frames_rainbow, rainbow_eq]
    refine ⟨_, rfl, by simp [htot], ?_⟩
    intro _ fr hfr op hop
    obtain ⟨i, hi, rfl⟩ := List.mem_map.mp hfr
    simp at hop
  · rw [create_frames_neon, neon_eq]
    refine ⟨_, rfl, by simp [htot], ?_⟩
    intro _ fr hfr op hop
    obtain ⟨i, hi, rfl⟩ := List.mem_map.mp hfr
    fin_cases hop <;> rfl

/-- Witness for C7's corrected statement at a concrete request. -/
theorem c7_witness :
    ∃ frames, create_frames constFont zeroRng "" "bounce" 20 ((1 : ℕ) : ℚ) = .ok frames ∧
      frames.length = 20 * 1 ∧
      ("bounce" ≠ "matrix" → ∀ fr ∈ frames, ∀ op ∈ fr.ops, op.text = "") :=
  c7_empty_text_background constFont zeroRng "bounce" (by simp) 20 1
    (by omega) (by omega) (by omega) (by omega)

/-! ### Bounce offset arithmetic -/

theorem sin_pi_div_five_bounds :
    (23/40 : ℝ) < Real.sin (Real.pi / 5) ∧ Real.sin (Real.pi / 5) < (3/5 : ℝ) := by
  have hcos : Real.cos (Real.pi / 5) = (1 + Real.sqrt 5) / 4 := Real.cos_pi_div_five
  have hs5 : Real.sqrt 5 ^ 2 = 5 := Real.sq_sqrt (by norm_num)
  have hs5nonneg : (0 : ℝ) ≤ Real.sqrt 5 := Real.sqrt_nonneg 5
  have hs5lb : (2.12 : ℝ) < Real.sqrt 5 := by nlinarith
  have hs5ub : Real.sqrt 5 < (2.2361 : ℝ) := by nlinarith
  have hsinpos : 0 < Real.sin (Real.pi / 5) :=
    Real.sin_pos_of_pos_of_lt_pi (by positivity) (by linarith [Real.pi_pos])
  have hsq : Real.sin (Real.pi / 5) ^ 2 = 1 - ((1 + Real.sqrt 5) / 4) ^ 2 := by
    have hpy := Real.sin_sq_add_cos_sq (Real.pi / 5)
    rw [hcos] at hpy
    linarith
  constructor
  · nlinarith [sq_nonneg (Real.sin (Real.pi / 5) - 23/40)]
  · nlinarith [sq_nonneg (Real.sin (Real.pi / 5) - 3/5)]

theorem bounce_offset_at_2_20 : bounce_offset 2 20 = 11 := by
  have harg : 2 * Real.pi * ((2 : ℕ) : ℝ) / ((20 : ℕ) : ℝ) = Real.pi / 5 := by
    push_cast
    ring
  obtain ⟨hlb, hub⟩ := sin_pi_div_five_bounds
  unfold bounce_offset
  rw [harg, pyTruncR, if_pos (by linarith)]
  rw [Int.floor_eq_iff]
  constructor
  · push_cast
    linarith
  · push_cast
    linarith

theorem round_bounce_arg_at_2_20 :
    round ((20 : ℝ) * Real.sin (2 * Real.pi * ((2 : ℕ) : ℝ) / ((20 : ℕ) : ℝ))) = 12 := by
  have harg : 2 * Real.pi * ((2 : ℕ) : ℝ) / ((20 : ℕ) : ℝ) = Real.pi / 5 := by
    push_cast
    ring
  obtain ⟨hlb, hub⟩ := sin_pi_div_five_bounds
  rw [harg, round_eq, Int.floor_eq_iff]
  constructor
  · push_cast
    linarith
  · push_cast
    linarith

/-- C8 (counterexample): the bounce offset is not `round(20 * sin(2π i /
fps))`.  At frame index 2 with fps = 20 the angle is π/5 and `20 * sin(π/5)
≈ 11.756`: the code's `int(...)` truncates to 11 while rounding gives 12. -/
theorem c8_counterexample :
    bounce_offset 2 20 ≠
      round ((20 : ℝ) * Real.sin (2 * Real.pi * ((2 : ℕ) : ℝ) / ((20 : ℕ) : ℝ))) := by
  rw [bounce_offset_at_2_20, round_bounce_arg_at_2_20]
  decide

/-- C8 (corrected): the bounce offset applied to the full text in frame `i`
is `int(20 * sin(2π i / fps))` — truncation toward zero, not rounding —
drawn at `(x, y + offset)` in the single color `colors[0]`; the offset at
frame 0 is 0, and for fps ≥ 1 it is periodic in the frame index with period
fps. -/
theorem c8_bounce_offset (font : FontMetrics) (text : String) (fps : ℕ) (d : ℚ)
    (i : ℕ) (hi : i < totalFrames fps d) (hfps : 1 ≤ fps) :
    (create_bounce_effect font text 800 400 bounceStyle fps d).getD i default =
      ⟨800, 400, bounceStyle.background,
       [⟨(originX font text 800 : ℚ),
         (originY font text 400 : ℚ) + (bounce_offset i fps : ℚ), text,
         bounceStyle.colors.getD 0 ""⟩]⟩ ∧
    bounce_offset 0 fps = 0 ∧
    bounce_offset (i + fps) fps = bounce_offset i fps := by
  refine ⟨?_, ?_, ?_⟩
  · rw [bounce_eq, getD_map_range _ hi]
  · simp [bounce_offset, pyTruncR]
  · have hfne : ((fps : ℕ) : ℝ) ≠ 0 := Nat.cast_ne_zero.mpr (by omega)
    have harg : 2 * Real.pi * ((i + fps : ℕ) : ℝ) / ((fps : ℕ) : ℝ) =
        2 * Real.pi * ((i : ℕ) : ℝ) / ((fps : ℕ) : ℝ) + 2 * Real.pi := by
      push_cast
      field_simp
      ring
    unfold bounce_offset
    rw [harg, Real.sin_add_two_pi]

/-- Witness for C8's corrected statement at a concrete input. -/
theorem c8_witness :
    (create_bounce_effect constFont "Hi" 800 400 bounceStyle 20 ((1 : ℕ) : ℚ)).getD 2
        default =
      ⟨800, 400, bounceStyle.background,
       [⟨(originX constFont "Hi" 800 : ℚ),
         (originY constFont "Hi" 400 : ℚ) + (bounce_offset 2 20 : ℚ), "Hi",
         bounceStyle.colors.getD 0 ""⟩]⟩ ∧
    bounce_offset 0 20 = 0 ∧
    bounce_offset (2 + 20) 20 = bounce_offset 2 20 :=
  c8_bounce_offset constFont "Hi" 20 ((1 : ℕ) : ℚ) 2
    (by rw [totalFrames_natCast]; omega) (by omega)

theorem getD_map_enum {α β : Type} [Inhabited β] (l : List α) (a0 : α) (g : ℕ × α → β)
    (j : ℕ) (hj : j < l.length) :
    (l.enum.map g).getD j default = g (j, l.getD j a0) := by
  rw [List.getD_eq_getElem?_getD, List.getElem?_map, List.getElem?_enum,
    List.getElem?_eq_getElem hj]
  rw [List.getD_eq_getElem?_getD, List.getElem?_eq_getElem hj]
  rfl

/-- C9 (confirmed): in the rainbow effect, character `j` of frame `i` is
drawn in color `colors[(i + j) mod len(colors)]` at horizontal position
`origin.x + measuredWidth(text[0:j])` (cumulative measured width of the
preceding prefix); the x-position term does not depend on the frame index,
and the color index cycles with period `len(colors)` as the frame index
increases. -/
theorem c9_rainbow_color_position (font : FontMetrics) (text : String)
    (fps : ℕ) (d : ℚ) (i j : ℕ) (hi : i < totalFrames fps d)
    (hj : j < text.toList.length) :
    (((create_rainbow_effect font text 800 400 rainbowStyle fps d).getD i
        default).ops.getD j default) =
      ⟨(originX font text 800 : ℚ) + font.textlength (text.take j),
       (originY font text 400 : ℚ),
       String.mk [text.toList.getD j 'A'],
       rainbowStyle.colors.getD ((i + j) % rainbowStyle.colors.length) ""⟩ ∧
    (i + rainbowStyle.colors.length + j) % rainbowStyle.colors.length =
      (i + j) % rainbowStyle.colors.length := by
  constructor
  · rw [rainbow_eq, getD_map_range _ hi]
    rw [getD_map_enum text.toList 'A' _ j hj]
  · have h1 : i + rainbowStyle.colors.length + j = i + j + rainbowStyle.colors.length := by
      omega
    rw [h1, Nat.add_mod_right]

/-- Witness for C9 at a concrete input. -/
theorem c9_witness :
    (((create_rainbow_effect constFont "Hi" 800 400 rainbowStyle 15 ((1 : ℕ) : ℚ)).getD 0
        default).ops.getD 1 default) =
      ⟨(originX constFont "Hi" 800 : ℚ) + constFont.textlength ("Hi".take 1),
       (originY constFont "Hi" 400 : ℚ),
       String.mk ["Hi".toList.getD 1 'A'],
       rainbowStyle.colors.getD ((0 + 1) % rainbowStyle.colors.length) ""⟩ ∧
    (0 + rainbowStyle.colors.length + 1) % rainbowStyle.colors.length =
      (0 + 1) % rainbowStyle.colors.length :=
  c9_rainbow_color_position constFont "Hi" 15 ((1 : ℕ) : ℚ) 0 1
    (by rw [totalFrames_natCast]; omega) (by decide)
